import Mathlib

/-!
Verification of the Signal Fusion and Alerting Engine of the ai_exam_system
repository (a proctoring tool built from a Flask app, three video detection
modules and an audio surveillance module).

The per-modality alert logic is embedded shallowly:

* timestamps, thresholds, cooldowns, confidences and angles are rationals
  (the source uses Python floats; no claim depends on float rounding);
* the external perception capabilities (MediaPipe face detection and face
  mesh, the YOLO object model, Whisper transcription, cv2.solvePnP) are
  out of scope per the spec; each evaluator here consumes the observation
  the source extracts from them (a face count, head-pose angles plus eye
  data, a detection list, a transcript string);
* frame drawing, screenshots, sqlite persistence and threading are side
  effects outside the alert logic; the alert log and counter of app.py are
  embedded as an explicit structure;
* each stateful tracker method becomes a pure step function from state and
  observation to state and optional alert, and sequences of observations
  are folded over it.

Pure geometry (Euler angle extraction, eye aspect ratio) is embedded over
the real numbers.
-/

namespace ExamSystem

/-! ## Geometry module (GazeTracker pure helpers, over the reals) -/

/-- Two-argument arctangent, the Lean counterpart of math.atan2: the
argument of the complex number with real part x and imaginary part y,
valued in the interval from minus pi exclusive to pi inclusive, 0 at the
origin, matching the Python function. -/
noncomputable def atan2 (y x : ℝ) : ℝ := Complex.arg ⟨x, y⟩

/-- math.degrees: radians to degrees. -/
noncomputable def degrees (radians : ℝ) : ℝ := radians * 180 / Real.pi

/-- Embeds GazeTracker.rotation_matrix_to_euler_angles: the standard Euler
decomposition of a rotation matrix with the gimbal-lock branch
(sy below 1e-6) falling back to a two-angle formula with roll fixed at 0.
Returns (pitch, yaw, roll) in degrees, in the order the source returns
[x, y, z]. -/
noncomputable def rotationMatrixToEulerAngles (R : Matrix (Fin 3) (Fin 3) ℝ) :
    ℝ × ℝ × ℝ :=
  let sy := Real.sqrt (R 0 0 * R 0 0 + R 1 0 * R 1 0)
  if sy < 1e-6 then
    (degrees (atan2 (-(R 1 2)) (R 1 1)), degrees (atan2 (-(R 2 0)) sy), degrees 0)
  else
    (degrees (atan2 (R 2 1) (R 2 2)), degrees (atan2 (-(R 2 0)) sy),
      degrees (atan2 (R 1 0) (R 0 0)))

/-- Embeds GazeTracker.calculate_head_pose. The cv2.solvePnP call is an
external numeric capability; its outcome is embedded as an optional
rotation matrix: some matrix when the solve converges (the source then
converts the Rodrigues vector to a matrix and extracts Euler angles), none
when it does not, in which case the source returns the neutral pose
[0, 0, 0] without raising. -/
noncomputable def calculateHeadPose
    (solvePnPRotation : Option (Matrix (Fin 3) (Fin 3) ℝ)) : ℝ × ℝ × ℝ :=
  match solvePnPRotation with
  | some rotationMatrix => rotationMatrixToEulerAngles rotationMatrix
  | none => (0, 0, 0)

/-- Euclidean distance between two planar points, the np.linalg.norm of
their difference used by calculate_eye_aspect_ratio. -/
noncomputable def pointDist (p q : ℝ × ℝ) : ℝ :=
  Real.sqrt ((p.1 - q.1) ^ 2 + (p.2 - q.2) ^ 2)

/-- The denominator 2.0 * C of the eye aspect ratio, where C is the
distance between the first and fourth of the six ordered eye landmarks
(the horizontal pair). The source divides by it with no zero guard. -/
noncomputable def earDenominator (eye : Fin 6 → ℝ × ℝ) : ℝ :=
  2 * pointDist (eye 0) (eye 3)

/-- Embeds GazeTracker.calculate_eye_aspect_ratio: (A + B) / (2.0 * C)
with A, B the two vertical point-pair distances and C the horizontal one.
In Lean the division is total with value 0 at a zero denominator; the
source performs the float division unguarded. -/
noncomputable def calculateEyeAspectRatio (eye : Fin 6 → ℝ × ℝ) : ℝ :=
  (pointDist (eye 1) (eye 5) + pointDist (eye 2) (eye 4)) / earDenominator eye

/-! ## Gaze evaluator (GazeTracker alert logic, over the rationals) -/

/-- The dictionary returned by GazeTracker.calculate_gaze_direction: eye
centers and the two eye aspect ratios. Parameterized over the number type
so the same record serves the rational evaluator and real geometry. -/
structure GazeDirectionInfo (K : Type) where
  leftEyeCenter : K × K
  rightEyeCenter : K × K
  leftEar : K
  rightEar : K
deriving DecidableEq

/-- self.head_pose_threshold = 30 degrees. -/
def headPoseThreshold {K : Type} [LinearOrderedField K] : K := 30

/-- Embeds GazeTracker.is_looking_away, preserving the branch order of the
source: the head-pose check comes first and returns True immediately when
either absolute pitch or absolute yaw exceeds the threshold; only
otherwise is the eye-closure (blink) check reached, and both remaining
branches return False. -/
def isLookingAway {K : Type} [LinearOrderedField K]
    (headPoseAngles : K × K × K) (gazeDirection : GazeDirectionInfo K) : Bool :=
  match headPoseAngles with
  | (pitch, yaw, _roll) =>
    if |pitch| > headPoseThreshold ∨ |yaw| > headPoseThreshold then
      true
    else if gazeDirection.leftEar < 0.2 ∧ gazeDirection.rightEar < 0.2 then
      false
    else
      false

/-- Mutable alert-tracking state of GazeTracker. -/
structure GazeState where
  lookingAwayStartTime : Option ℚ
  lastAlertTime : ℚ
deriving DecidableEq

/-- GazeTracker constructor state: looking_away_start_time = None,
last_alert_time = 0. -/
def gazeInit : GazeState := { lookingAwayStartTime := none, lastAlertTime := 0 }

/-- self.alert_threshold = 3 seconds in GazeTracker. -/
def gazeAlertThreshold : ℚ := 3

/-- self.alert_cooldown = 5 seconds in GazeTracker. -/
def gazeAlertCooldown : ℚ := 5

/-- The single alert message of the gaze evaluator. -/
inductive GazeAlert where
  | lookingAway
deriving DecidableEq

/-- Embeds the alert logic of GazeTracker.track_gaze for one frame. The
observation is none when the face mesh finds no landmarks (the source then
skips the body entirely, leaving the timer untouched), and otherwise
carries the computed head-pose angles and gaze-direction record. When the
frame is flagged as looking away the timer is started or, once running
longer than the threshold, promoted through the cooldown gate; when it is
not flagged, the timer is reset to None. -/
def trackGaze (s : GazeState) (now : ℚ)
    (observation : Option ((ℚ × ℚ × ℚ) × GazeDirectionInfo ℚ)) :
    GazeState × Option GazeAlert :=
  match observation with
  | none => (s, none)
  | some (headPoseAngles, gazeDirection) =>
    if isLookingAway headPoseAngles gazeDirection then
      match s.lookingAwayStartTime with
      | none => ({ s with lookingAwayStartTime := some now }, none)
      | some startTime =>
        if now - startTime > gazeAlertThreshold then
          if now - s.lastAlertTime > gazeAlertCooldown then
            ({ s with lastAlertTime := now }, some GazeAlert.lookingAway)
          else (s, none)
        else (s, none)
    else ({ s with lookingAwayStartTime := none }, none)

/-! ## Presence evaluator (FaceTracker) -/

/-- Mutable alert-tracking state of FaceTracker. -/
structure FaceState where
  noFaceStartTime : Option ℚ
  multipleFacesStartTime : Option ℚ
  lastAlertTime : ℚ
deriving DecidableEq

/-- FaceTracker constructor state: both timers None, last_alert_time 0. -/
def faceInit : FaceState :=
  { noFaceStartTime := none, multipleFacesStartTime := none, lastAlertTime := 0 }

/-- self.alert_threshold = 5 seconds in FaceTracker. -/
def faceAlertThreshold : ℚ := 5

/-- self.alert_cooldown = 3 seconds in FaceTracker. -/
def faceAlertCooldown : ℚ := 3

/-- The two alert messages of the presence evaluator; the multiple-faces
message carries the face count interpolated into it. -/
inductive FaceAlert where
  | noFace
  | multipleFaces (n : ℕ)
deriving DecidableEq

/-- Embeds the alert logic of FaceTracker.detect_faces for one frame. The
face count is the output of the external MediaPipe detector on the frame.
Branches follow the source: at count 0 the absence timer is started on its
first zero observation and an alert requires the elapsed time to exceed
the threshold strictly and the cooldown gate to pass; at count 1 both
timers reset; above 1 the multiplicity timer runs the same logic. The
complementary timer is reset in the 0 and above-1 branches. -/
def detectFaces (s : FaceState) (now : ℚ) (faceCount : ℕ) :
    FaceState × Option FaceAlert :=
  if faceCount = 0 then
    match s.noFaceStartTime with
    | none =>
      ({ s with noFaceStartTime := some now, multipleFacesStartTime := none }, none)
    | some startTime =>
      if now - startTime > faceAlertThreshold then
        if now - s.lastAlertTime > faceAlertCooldown then
          ({ s with multipleFacesStartTime := none, lastAlertTime := now },
            some FaceAlert.noFace)
        else ({ s with multipleFacesStartTime := none }, none)
      else ({ s with multipleFacesStartTime := none }, none)
  else if faceCount = 1 then
    ({ s with noFaceStartTime := none, multipleFacesStartTime := none }, none)
  else
    match s.multipleFacesStartTime with
    | none =>
      ({ s with multipleFacesStartTime := some now, noFaceStartTime := none }, none)
    | some startTime =>
      if now - startTime > faceAlertThreshold then
        if now - s.lastAlertTime > faceAlertCooldown then
          ({ s with noFaceStartTime := none, lastAlertTime := now },
            some (FaceAlert.multipleFaces faceCount))
        else ({ s with noFaceStartTime := none }, none)
      else ({ s with noFaceStartTime := none }, none)

/-- Embeds FaceTracker.reset_timers: both condition timers to None and
last_alert_time to 0, the constructor state. -/
def resetTimers (_s : FaceState) : FaceState :=
  { noFaceStartTime := none, multipleFacesStartTime := none, lastAlertTime := 0 }

/-! ## Object evaluator (YOLODetector) -/

/-- One detection above the model confidence parameter: COCO class name,
confidence, bounding box. -/
structure Detection where
  className : String
  confidence : ℚ
  bbox : ℚ × ℚ × ℚ × ℚ
deriving DecidableEq

/-- The prohibited classes the source checks with
class_name in ["cell phone", "book", "laptop"]. -/
def suspiciousObjectClasses : List String := ["cell phone", "book", "laptop"]

/-- self.detection_threshold = 0.5, passed to the model as the confidence
floor. -/
def detectionThreshold : ℚ := 0.5

/-- self.alert_cooldown = 5 seconds in YOLODetector. -/
def yoloAlertCooldown : ℚ := 5

/-- The confidence filtering the source delegates to the YOLO model via
conf=self.detection_threshold. -/
def confidentDetections (detections : List Detection) : List Detection :=
  detections.filter fun d => decide (detectionThreshold ≤ d.confidence)

/-- The person_count accumulated over boxes with class name person. -/
def personCount (boxes : List Detection) : ℕ :=
  (boxes.filter fun d => d.className == "person").length

/-- The suspicious_detections list accumulated over boxes whose class name
is in the prohibited list. -/
def suspiciousDetections (boxes : List Detection) : List Detection :=
  boxes.filter fun d => suspiciousObjectClasses.contains d.className

/-- Mutable alert-tracking state of YOLODetector. -/
structure YoloState where
  lastAlertTime : ℚ
deriving DecidableEq

/-- YOLODetector constructor state: last_alert_time = 0. -/
def yoloInit : YoloState := { lastAlertTime := 0 }

/-- The two alert messages of the object evaluator. The suspicious-objects
message carries the deduplicated class names (the source joins a Python
set of them; set iteration order is arbitrary, embedded as first-occurrence
order). -/
inductive YoloAlert where
  | multiplePeople (n : ℕ)
  | suspiciousObjects (classNames : List String)
deriving DecidableEq

/-- Embeds the alert logic of YOLODetector.detect_objects for one frame.
The source holds a single alert_message variable and a single
last_alert_time: the multiple-people branch runs first and, when it fires,
sets last_alert_time to the current time; the prohibited-objects branch
then re-checks the cooldown against that updated value and overwrites
alert_message when it fires. Both steps are embedded in sequence. -/
def detectObjects (s : YoloState) (now : ℚ) (detections : List Detection) :
    YoloState × Option YoloAlert :=
  let boxes := confidentDetections detections
  let suspicious := suspiciousDetections boxes
  let afterPeople : Option YoloAlert × ℚ :=
    if personCount boxes > 1 ∧ now - s.lastAlertTime > yoloAlertCooldown then
      (some (YoloAlert.multiplePeople (personCount boxes)), now)
    else (none, s.lastAlertTime)
  let afterObjects : Option YoloAlert × ℚ :=
    if suspicious ≠ [] ∧ now - afterPeople.2 > yoloAlertCooldown then
      (some (YoloAlert.suspiciousObjects ((suspicious.map Detection.className).dedup)),
        now)
    else afterPeople
  ({ lastAlertTime := afterObjects.2 }, afterObjects.1)

/-! ## Speech evaluator (AudioSurveillance) -/

/-- self.suspicious_keywords, in source order. -/
def suspiciousKeywords : List String :=
  ["help", "answer", "tell me", "what is", "how to", "search", "google",
   "phone", "call", "text", "message", "whatsapp", "telegram",
   "copy", "paste", "share", "send", "email", "screenshot",
   "exam", "test", "question", "solution", "cheat", "cheating"]

/-- The keywords the source collects: each keyword of the list that occurs
as a contiguous substring of the lowercased transcription, in list order.
Keywords in the source are already lowercase; only the transcription is
lowercased. -/
def detectedKeywords (transcription : String) : List String :=
  suspiciousKeywords.filter fun keyword =>
    decide (List.IsInfix keyword.toList (transcription.toList.map Char.toLower))

/-- Helper for the word count: consumes characters tracking whether the
previous character was inside a word, counting word starts. -/
def countWordsAux : Bool → List Char → ℕ
  | _, [] => 0
  | inWord, c :: cs =>
    if c = ' ' then countWordsAux false cs
    else (if inWord then 0 else 1) + countWordsAux true cs

/-- len(transcription.split()): the number of maximal runs of non-space
characters (the source splits on runs of whitespace; transcripts here use
plain spaces). -/
def countWords (transcription : String) : ℕ :=
  countWordsAux false transcription.toList

/-- self.alert_cooldown = 10 seconds in AudioSurveillance. -/
def audioAlertCooldown : ℚ := 10

/-- Mutable alert-tracking state of AudioSurveillance. -/
structure AudioState where
  lastAlertTime : ℚ
deriving DecidableEq

/-- AudioSurveillance constructor state: last_alert_time = 0. -/
def audioInit : AudioState := { lastAlertTime := 0 }

/-- The two alert messages of the speech evaluator; the keyword message
carries the detected keywords interpolated into it. -/
inductive SpeechAlert where
  | suspiciousSpeech (keywords : List String)
  | continuousSpeech
deriving DecidableEq

/-- Embeds AudioSurveillance._check_suspicious_content for one transcript.
The keyword check runs first; when it finds keywords and the shared
cooldown gate is open it returns the keyword alert and stamps
last_alert_time. Otherwise control falls through to the continuous-speech
check (more than 10 words) against the same cooldown state. The source
reads time.time() separately in each branch within one invocation; both
reads are embedded as the single observation timestamp. -/
def checkSuspiciousContent (s : AudioState) (now : ℚ) (transcription : String) :
    AudioState × Option SpeechAlert :=
  let detected := detectedKeywords transcription
  if detected ≠ [] ∧ now - s.lastAlertTime > audioAlertCooldown then
    ({ lastAlertTime := now }, some (SpeechAlert.suspiciousSpeech detected))
  else if countWords transcription > 10 ∧ now - s.lastAlertTime > audioAlertCooldown then
    ({ lastAlertTime := now }, some SpeechAlert.continuousSpeech)
  else (s, none)

/-! ## Alert aggregator (app.py globals and VideoCamera.log_alert,
AudioSurveillance._log_audio_alert) -/

/-- One persisted row of the alerts table: alert type, message, optional
screenshot path. Student id and timestamp formatting are external session
and wall-clock concerns and are not part of the counting logic. -/
structure AlertRecord where
  alertType : String
  message : String
  screenshotPath : Option String
deriving DecidableEq

/-- The process-wide alert log state of app.py: the global alert_count and
the append-only alerts table. -/
structure EngineLog where
  alertCount : ℕ
  alerts : List AlertRecord
deriving DecidableEq

/-- The state at process start: alert_count = 0, empty table. -/
def engineInit : EngineLog := { alertCount := 0, alerts := [] }

/-- Embeds VideoCamera.log_alert, the video-path recording: increments the
global alert_count by one, captures a screenshot path, appends the row. -/
def logAlert (g : EngineLog) (alertType message screenshotPath : String) :
    EngineLog :=
  { alertCount := g.alertCount + 1,
    alerts := g.alerts ++ [⟨alertType, message, some screenshotPath⟩] }

/-- Embeds AudioSurveillance._log_audio_alert, the audio-path recording:
appends an AUDIO_DETECTION row with the transcription folded into the
message and a null screenshot path. It does not touch alert_count. -/
def logAudioAlert (g : EngineLog) (alertMessage transcription : String) :
    EngineLog :=
  { alertCount := g.alertCount,
    alerts := g.alerts ++
      [⟨"AUDIO_DETECTION", alertMessage ++ " | Transcription: " ++ transcription, none⟩] }

/-- A recording event from either cadence domain. -/
inductive EngineOp where
  | videoAlert (alertType message screenshotPath : String)
  | audioAlert (alertMessage transcription : String)

/-- Apply one recording event to the log state. -/
def applyOp (g : EngineLog) : EngineOp → EngineLog
  | EngineOp.videoAlert t m p => logAlert g t m p
  | EngineOp.audioAlert m tr => logAudioAlert g m tr

/-- Apply a session history of recording events in order. -/
def applyOps (g : EngineLog) (ops : List EngineOp) : EngineLog :=
  ops.foldl applyOp g

/-! ## Folding evaluators over observation sequences -/

/-- Fold a stateful evaluator step over a list of observations, collecting
each emitted alert with the timestamp of the observation that produced it
(the step functions stamp exactly that time into last_alert_time). -/
def runEval {σ ι α : Type} (step : σ → ι → σ × Option α) (time : ι → ℚ) :
    σ → List ι → σ × List (ℚ × α)
  | s, [] => (s, [])
  | s, i :: l =>
    let r := step s i
    let rest := runEval step time r.1 l
    (rest.1, (match r.2 with | some a => [(time i, a)] | none => []) ++ rest.2)

/-- FaceTracker.detect_faces over a sequence of timestamped face counts. -/
def runFace (s : FaceState) (l : List (ℚ × ℕ)) : FaceState × List (ℚ × FaceAlert) :=
  runEval (fun s o => detectFaces s o.1 o.2) Prod.fst s l

/-- GazeTracker.track_gaze over a sequence of timestamped observations. -/
def runGaze (s : GazeState)
    (l : List (ℚ × Option ((ℚ × ℚ × ℚ) × GazeDirectionInfo ℚ))) :
    GazeState × List (ℚ × GazeAlert) :=
  runEval (fun s o => trackGaze s o.1 o.2) Prod.fst s l

/-- YOLODetector.detect_objects over a sequence of timestamped frames. -/
def runYolo (s : YoloState) (l : List (ℚ × List Detection)) :
    YoloState × List (ℚ × YoloAlert) :=
  runEval (fun s o => detectObjects s o.1 o.2) Prod.fst s l

/-- AudioSurveillance._check_suspicious_content over a sequence of
timestamped transcripts. -/
def runAudio (s : AudioState) (l : List (ℚ × String)) :
    AudioState × List (ℚ × SpeechAlert) :=
  runEval (fun s o => checkSuspiciousContent s o.1 o.2) Prod.fst s l

/-! ## Session reset (logout plus re-login reconstruction) -/

/-- The logout route drops the camera; the next exam request reconstructs
GazeTracker from scratch, so session reset maps its state to the
constructor state. -/
def resetGazeSession (_s : GazeState) : GazeState := gazeInit

/-- Session reset of YOLODetector state by reconstruction. -/
def resetYoloSession (_s : YoloState) : YoloState := yoloInit

/-- Session reset of AudioSurveillance state by reconstruction. -/
def resetAudioSession (_s : AudioState) : AudioState := audioInit

/-! ## Concrete observation material for scenarios -/

/-- The face count sequence [1, 1, 0, 0, 0, 0, 0, 0, 1] of the spec,
sampled once per second from t = 0. -/
def faceCountScenario : List (ℚ × ℕ) :=
  [(0, 1), (1, 1), (2, 0), (3, 0), (4, 0), (5, 0), (6, 0), (7, 0), (8, 1)]

/-- The same sequence with the ninth sample still zero, so the absence
spans strictly more than the threshold at t = 8. -/
def faceCountScenarioLonger : List (ℚ × ℕ) :=
  [(0, 1), (1, 1), (2, 0), (3, 0), (4, 0), (5, 0), (6, 0), (7, 0), (8, 0)]

/-- A gaze-direction record of a blink: both eye aspect ratios 0.1, below
the 0.2 threshold. -/
def blinkGaze : GazeDirectionInfo ℚ :=
  { leftEyeCenter := (0, 0), rightEyeCenter := (0, 0),
    leftEar := 0.1, rightEar := 0.1 }

/-- A presence-evaluator state in which the absence timer was started at
time 0 and no alert has been emitted, for concrete evaluations. -/
def absenceState : FaceState :=
  { noFaceStartTime := some 0, multipleFacesStartTime := none, lastAlertTime := 0 }

/-- A frame with two persons and one prohibited object, all above the
confidence floor. -/
def multiPersonPhoneFrame : List Detection :=
  [{ className := "person", confidence := 0.9, bbox := (0, 0, 10, 10) },
   { className := "person", confidence := 0.9, bbox := (20, 0, 30, 10) },
   { className := "cell phone", confidence := 0.8, bbox := (5, 5, 6, 6) }]

/-- Six eye points whose horizontal pair (indices 0 and 3) is distinct,
for concrete evaluations of the eye aspect ratio precondition. -/
noncomputable def eyeWitnessPoints : Fin 6 → ℝ × ℝ :=
  fun i => (if i = 3 then 1 else 0, 0)

/-! ## Helper lemmas: each evaluator respects the cooldown gate -/

/-- detect_faces emits only when the cooldown is open and then stamps
last_alert_time with the observation time; a non-emitting step leaves
last_alert_time untouched. -/
theorem detectFaces_gated (s : FaceState) (now : ℚ) (c : ℕ) :
    ((detectFaces s now c).2.isSome →
      now - s.lastAlertTime > faceAlertCooldown ∧
      (detectFaces s now c).1.lastAlertTime = now) ∧
    ((detectFaces s now c).2 = none →
      (detectFaces s now c).1.lastAlertTime = s.lastAlertTime) := by
  unfold detectFaces
  repeat' split
  all_goals simp_all

/-- track_gaze emits only when the cooldown is open and then stamps
last_alert_time with the observation time; a non-emitting step leaves
last_alert_time untouched. -/
theorem trackGaze_gated (s : GazeState) (now : ℚ)
    (obs : Option ((ℚ × ℚ × ℚ) × GazeDirectionInfo ℚ)) :
    ((trackGaze s now obs).2.isSome →
      now - s.lastAlertTime > gazeAlertCooldown ∧
      (trackGaze s now obs).1.lastAlertTime = now) ∧
    ((trackGaze s now obs).2 = none →
      (trackGaze s now obs).1.lastAlertTime = s.lastAlertTime) := by
  unfold trackGaze
  repeat' split
  all_goals simp_all

/-- detect_objects emits only when the cooldown is open and then stamps
last_alert_time with the observation time; a non-emitting step leaves
last_alert_time untouched. -/
theorem detectObjects_gated (s : YoloState) (now : ℚ) (dets : List Detection) :
    ((detectObjects s now dets).2.isSome →
      now - s.lastAlertTime > yoloAlertCooldown ∧
      (detectObjects s now dets).1.lastAlertTime = now) ∧
    ((detectObjects s now dets).2 = none →
      (detectObjects s now dets).1.lastAlertTime = s.lastAlertTime) := by
  simp only [detectObjects]
  repeat' split
  all_goals simp_all

/-- _check_suspicious_content emits only when the cooldown is open and
then stamps last_alert_time with the observation time; a non-emitting step
leaves last_alert_time untouched. -/
theorem checkSuspiciousContent_gated (s : AudioState) (now : ℚ) (tr : String) :
    ((checkSuspiciousContent s now tr).2.isSome →
      now - s.lastAlertTime > audioAlertCooldown ∧
      (checkSuspiciousContent s now tr).1.lastAlertTime = now) ∧
    ((checkSuspiciousContent s now tr).2 = none →
      (checkSuspiciousContent s now tr).1.lastAlertTime = s.lastAlertTime) := by
  simp only [checkSuspiciousContent]
  split
  next h =>
    exact ⟨fun _ => ⟨h.2, rfl⟩, fun hn => by simp at hn⟩
  next =>
    split
    next h2 =>
      exact ⟨fun _ => ⟨h2.2, rfl⟩, fun hn => by simp at hn⟩
    next =>
      exact ⟨fun hs => by simp at hs, fun _ => rfl⟩

/-- Generic cooldown discipline: folding any step function that emits only
through an open cooldown gate (stamping the gate with the emission time,
and leaving it untouched otherwise) produces an alert list in which every
later alert is more than the cooldown after every earlier one, provided
the cooldown is nonnegative. -/
theorem runEval_spacing {σ ι α : Type} (step : σ → ι → σ × Option α)
    (time : ι → ℚ) (last : σ → ℚ) (cd : ℚ) (hcd : 0 ≤ cd)
    (hsome : ∀ s i, (step s i).2.isSome →
      time i - last s > cd ∧ last (step s i).1 = time i)
    (hnone : ∀ s i, (step s i).2 = none → last (step s i).1 = last s) :
    ∀ (l : List ι) (s : σ),
      List.Pairwise (fun x y => y.1 - x.1 > cd) (runEval step time s l).2 ∧
      ∀ x ∈ (runEval step time s l).2, x.1 - last s > cd := by
  intro l
  induction l with
  | nil => intro s; simp [runEval]
  | cons i l ih =>
    intro s
    rcases ha : (step s i).2 with _ | m
    · have hlast : last (step s i).1 = last s := hnone s i ha
      have ihs := ih (step s i).1
      constructor
      · simpa [runEval, ha] using ihs.1
      · intro x hx
        rw [runEval] at hx
        simp only [ha, List.nil_append] at hx
        have hmem := ihs.2 x hx
        rw [hlast] at hmem
        exact hmem
    · have hs := hsome s i (by rw [ha]; rfl)
      have ihs := ih (step s i).1
      constructor
      · rw [runEval]
        simp only [ha, List.singleton_append, List.pairwise_cons]
        refine ⟨fun y hy => ?_, ihs.1⟩
        have hmem := ihs.2 y hy
        rw [hs.2] at hmem
        exact hmem
      · intro x hx
        rw [runEval] at hx
        simp only [ha, List.singleton_append, List.mem_cons] at hx
        rcases hx with rfl | hx
        · exact hs.1
        · have hmem := ihs.2 x hx
          rw [hs.2] at hmem
          have hfirst := hs.1
          linarith

/-- One recording event never decreases the counter. -/
theorem applyOp_count_le (g : EngineLog) (op : EngineOp) :
    g.alertCount ≤ (applyOp g op).alertCount := by
  cases op <;> simp [applyOp, logAlert, logAudioAlert]

/-- A session history of recording events never decreases the counter. -/
theorem applyOps_count_mono (g : EngineLog) (ops : List EngineOp) :
    g.alertCount ≤ (applyOps g ops).alertCount := by
  induction ops generalizing g with
  | nil => exact le_rfl
  | cons op ops ih =>
    exact le_trans (applyOp_count_le g op) (ih (applyOp g op))

/-! ## Claim C1 -/

/-- C1 counterexample: the audio recording path appends a row to the alert
log while leaving the process-wide counter unchanged, so recording an
audio alert does not increment the counter by one. -/
theorem c1_counterexample :
    (logAudioAlert engineInit "SUSPICIOUS SPEECH DETECTED - Keywords: phone"
      "where is my phone").alerts.length = engineInit.alerts.length + 1 ∧
    (logAudioAlert engineInit "SUSPICIOUS SPEECH DETECTED - Keywords: phone"
      "where is my phone").alertCount = engineInit.alertCount :=
  ⟨rfl, rfl⟩

/-- C1 (amended): the counter increments by exactly one per alert recorded
through the video path (VideoCamera.log_alert), while the audio path
(AudioSurveillance._log_audio_alert) appends its alert row without
touching the counter; the counter is non-decreasing across any session
history of recording events from either path. -/
theorem c1_video_increments_audio_does_not :
    (∀ (g : EngineLog) (t m p : String),
      (logAlert g t m p).alertCount = g.alertCount + 1 ∧
      (logAlert g t m p).alerts.length = g.alerts.length + 1) ∧
    (∀ (g : EngineLog) (m tr : String),
      (logAudioAlert g m tr).alertCount = g.alertCount ∧
      (logAudioAlert g m tr).alerts.length = g.alerts.length + 1) ∧
    (∀ (g : EngineLog) (ops : List EngineOp),
      g.alertCount ≤ (applyOps g ops).alertCount) := by
  refine ⟨fun g t m p => ⟨rfl, ?_⟩, fun g m tr => ⟨rfl, ?_⟩, applyOps_count_mono⟩
  · simp [logAlert]
  · simp [logAudioAlert]

/-! ## Claim C2 -/

/-- C2 counterexample: a frame with both eye aspect ratios at 0.1 (below
the 0.2 blink threshold) and pitch 35 degrees is still flagged as looking
away, because the head-pose check precedes the blink check; and a blink
frame with a neutral head pose resets a running away-timer to None rather
than leaving it unchanged. -/
theorem c2_counterexample :
    blinkGaze.leftEar < 0.2 ∧ blinkGaze.rightEar < 0.2 ∧
    isLookingAway ((35 : ℚ), 0, 0) blinkGaze = true ∧
    (trackGaze { lookingAwayStartTime := some 0, lastAlertTime := 0 } 1
      (some (((0 : ℚ), 0, 0), blinkGaze))).1.lookingAwayStartTime = none := by
  refine ⟨by norm_num [blinkGaze], by norm_num [blinkGaze], ?_, ?_⟩
  · norm_num [isLookingAway, headPoseThreshold]
  · norm_num [trackGaze, isLookingAway, headPoseThreshold, blinkGaze]

/-- C2 (amended): the blink check is subordinate to the head-pose check:
the looking-away flag equals the head-pose condition alone (either
absolute pitch or absolute yaw above 30), and the eye aspect ratios never
affect it; a frame that is not flagged, which includes every blink frame
with in-threshold head pose, resets the away-timer to None, while a
flagged frame, which includes a blink with out-of-threshold head pose,
starts the timer or leaves a running one in place. -/
theorem c2_blink_subordinate_to_head_pose :
    (∀ (pitch yaw roll : ℚ) (gd : GazeDirectionInfo ℚ),
      isLookingAway (pitch, yaw, roll) gd = true ↔
        |pitch| > headPoseThreshold ∨ |yaw| > headPoseThreshold) ∧
    (∀ (s : GazeState) (now : ℚ) (angles : ℚ × ℚ × ℚ) (gd : GazeDirectionInfo ℚ),
      isLookingAway angles gd = false →
        (trackGaze s now (some (angles, gd))).1.lookingAwayStartTime = none) ∧
    (∀ (s : GazeState) (now : ℚ) (angles : ℚ × ℚ × ℚ) (gd : GazeDirectionInfo ℚ),
      isLookingAway angles gd = true →
        (trackGaze s now (some (angles, gd))).1.lookingAwayStartTime =
          some (s.lookingAwayStartTime.getD now)) := by
  refine ⟨fun pitch yaw roll gd => ?_, fun s now angles gd h => ?_, fun s now angles gd h => ?_⟩
  · by_cases hc : |pitch| > headPoseThreshold ∨ |yaw| > headPoseThreshold
    · simp [isLookingAway, hc]
    · simp [isLookingAway, hc]
  · simp [trackGaze, h]
  · rcases hst : s.lookingAwayStartTime with _ | startTime
    · simp [trackGaze, h, hst]
    · simp only [trackGaze, h, if_true, hst, Option.getD_some]
      repeat' split
      all_goals simp_all

/-- C2 witness: the amended theorem applied at concrete frames: a blink
with neutral pose resets a running timer, and a blink with pitch 35 keeps
the running timer at its start. -/
theorem c2_blink_subordinate_witness :
    isLookingAway ((0 : ℚ), 0, 0) blinkGaze = false ∧
    (trackGaze { lookingAwayStartTime := some 0, lastAlertTime := 0 } 1
      (some (((0 : ℚ), 0, 0), blinkGaze))).1.lookingAwayStartTime = none ∧
    isLookingAway ((35 : ℚ), 0, 0) blinkGaze = true ∧
    (trackGaze { lookingAwayStartTime := some 0, lastAlertTime := 0 } 1
      (some (((35 : ℚ), 0, 0), blinkGaze))).1.lookingAwayStartTime = some 0 := by
  have h0 : isLookingAway ((0 : ℚ), 0, 0) blinkGaze = false := by
    norm_num [isLookingAway, headPoseThreshold, blinkGaze]
  have h35 : isLookingAway ((35 : ℚ), 0, 0) blinkGaze = true := by
    norm_num [isLookingAway, headPoseThreshold]
  refine ⟨h0, c2_blink_subordinate_to_head_pose.2.1 _ 1 _ _ h0, h35, ?_⟩
  simpa using c2_blink_subordinate_to_head_pose.2.2
    { lookingAwayStartTime := some 0, lastAlertTime := 0 } 1 ((35 : ℚ), 0, 0) blinkGaze h35

/-! ## Claim C3 -/

/-- C3 counterexample: on a frame with two persons and one cell phone,
all above the confidence floor, and the cooldown expired at invocation
time, the invocation emits only the multiple-people alert; the
prohibited-objects candidate is not emitted, so the two candidates do not
co-occur. -/
theorem c3_counterexample :
    personCount (confidentDetections multiPersonPhoneFrame) = 2 ∧
    suspiciousDetections (confidentDetections multiPersonPhoneFrame) ≠ [] ∧
    (100 : ℚ) - yoloInit.lastAlertTime > yoloAlertCooldown ∧
    (detectObjects yoloInit 100 multiPersonPhoneFrame).2 =
      some (YoloAlert.multiplePeople 2) := by
  refine ⟨?_, ?_, by norm_num [yoloInit, yoloAlertCooldown], ?_⟩
  · norm_num [personCount, confidentDetections, multiPersonPhoneFrame,
      detectionThreshold, List.filter]
    decide
  · norm_num [suspiciousDetections, confidentDetections, multiPersonPhoneFrame,
      detectionThreshold, suspiciousObjectClasses, List.filter]
    decide
  · norm_num [detectObjects, personCount, suspiciousDetections, confidentDetections,
      multiPersonPhoneFrame, detectionThreshold, suspiciousObjectClasses,
      yoloInit, yoloAlertCooldown, List.filter]
    decide

/-- C3 (amended): the object evaluator emits at most one alert per
invocation through a single message slot and a single shared cooldown:
whenever more than one person is detected and the cooldown is open, the
invocation emits exactly the multiple-people alert (whatever prohibited
objects are present, since the people branch stamps the cooldown that the
prohibited-objects branch then re-checks); a prohibited-objects alert is
emitted only in invocations where the multiple-people branch did not
fire. -/
theorem c3_single_alert_people_priority :
    (∀ (s : YoloState) (now : ℚ) (dets : List Detection),
      personCount (confidentDetections dets) > 1 →
      now - s.lastAlertTime > yoloAlertCooldown →
      (detectObjects s now dets).2 =
        some (YoloAlert.multiplePeople (personCount (confidentDetections dets)))) ∧
    (∀ (s : YoloState) (now : ℚ) (dets : List Detection) (ns : List String),
      (detectObjects s now dets).2 = some (YoloAlert.suspiciousObjects ns) →
      ¬ (personCount (confidentDetections dets) > 1 ∧
        now - s.lastAlertTime > yoloAlertCooldown)) := by
  have hstep : ∀ (s : YoloState) (now : ℚ) (dets : List Detection),
      personCount (confidentDetections dets) > 1 →
      now - s.lastAlertTime > yoloAlertCooldown →
      (detectObjects s now dets).2 =
        some (YoloAlert.multiplePeople (personCount (confidentDetections dets))) := by
    intro s now dets h1 h2
    simp only [detectObjects, if_pos (And.intro h1 h2)]
    rw [if_neg]
    rintro ⟨-, hlt⟩
    rw [sub_self] at hlt
    norm_num [yoloAlertCooldown] at hlt
  refine ⟨hstep, fun s now dets ns h => ?_⟩
  rintro ⟨h1, h2⟩
  rw [hstep s now dets h1 h2] at h
  simp at h

/-- C3 witness: the amended theorem applied to the concrete two-person
plus cell-phone frame with the cooldown open. -/
theorem c3_people_priority_witness :
    personCount (confidentDetections multiPersonPhoneFrame) > 1 ∧
    (100 : ℚ) - yoloInit.lastAlertTime > yoloAlertCooldown ∧
    (detectObjects yoloInit 100 multiPersonPhoneFrame).2 =
      some (YoloAlert.multiplePeople
        (personCount (confidentDetections multiPersonPhoneFrame))) := by
  have hp : personCount (confidentDetections multiPersonPhoneFrame) > 1 := by
    norm_num [personCount, confidentDetections, multiPersonPhoneFrame,
      detectionThreshold, List.filter]
  have hc : (100 : ℚ) - yoloInit.lastAlertTime > yoloAlertCooldown := by
    norm_num [yoloInit, yoloAlertCooldown]
  exact ⟨hp, hc, c3_single_alert_people_priority.1 yoloInit 100 multiPersonPhoneFrame hp hc⟩

/-! ## Claim C4 -/

/-- C4 counterexample: on the spec scenario sequence
[1, 1, 0, 0, 0, 0, 0, 0, 1] sampled once per second with the default 5
second threshold, the presence evaluator emits no alert at all (the
elapsed absence reaches exactly 5 seconds at the last zero sample, and the
source requires the elapsed time to exceed the threshold strictly), so it
does not emit exactly one alert. -/
theorem c4_counterexample : (runFace faceInit faceCountScenario).2 = [] := by
  norm_num [runFace, runEval, detectFaces, faceCountScenario, faceInit,
    faceAlertThreshold, faceAlertCooldown]

/-- C4 (amended): the absence alert requires the count to have been
continuously zero for strictly more than the threshold: the scenario
sequence [1, 1, 0, 0, 0, 0, 0, 0, 1] produces no alert, its extension with
a ninth zero sample produces exactly one alert anchored at t = 8 (the
first sample strictly more than 5 seconds after the first zero), and in
general the no-face alert is emitted only at a zero observation whose
time exceeds the recorded absence start by strictly more than the
threshold. -/
theorem c4_absence_threshold_strict :
    (runFace faceInit faceCountScenario).2 = [] ∧
    (runFace faceInit faceCountScenarioLonger).2 = [(8, FaceAlert.noFace)] ∧
    (∀ (s : FaceState) (now : ℚ) (c : ℕ),
      (detectFaces s now c).2 = some FaceAlert.noFace →
      c = 0 ∧ ∃ startTime, s.noFaceStartTime = some startTime ∧
        now - startTime > faceAlertThreshold) := by
  refine ⟨?_, ?_, fun s now c h => ?_⟩
  · norm_num [runFace, runEval, detectFaces, faceCountScenario, faceInit,
      faceAlertThreshold, faceAlertCooldown]
  · norm_num [runFace, runEval, detectFaces, faceCountScenarioLonger, faceInit,
      faceAlertThreshold, faceAlertCooldown]
  · unfold detectFaces at h
    repeat' split at h
    all_goals simp_all

/-- C4 witness: the amended theorem applied at a concrete absence state
six seconds after the recorded start. -/
theorem c4_absence_threshold_witness :
    (detectFaces absenceState 6 0).2 = some FaceAlert.noFace ∧
    (0 = 0 ∧ ∃ startTime, absenceState.noFaceStartTime = some startTime ∧
      (6 : ℚ) - startTime > faceAlertThreshold) := by
  have h : (detectFaces absenceState 6 0).2 = some FaceAlert.noFace := by
    norm_num [detectFaces, absenceState, faceAlertThreshold, faceAlertCooldown]
  exact ⟨h, c4_absence_threshold_strict.2.2 _ 6 0 h⟩

/-! ## Claim C5 -/

/-- C5: session reset (the logout route plus reconstruction of every
tracker on the next exam request, and FaceTracker.reset_timers) maps every
evaluator state to its constructor state: all condition-start timestamps
are None and every last_alert_time cooldown is 0, for the presence, gaze,
object and speech evaluators alike; consequently feeding any observation
sequence after a reset, even one issued after an arbitrary prior history,
produces exactly the alerts a fresh session produces on that sequence. -/
theorem c5_reset_session_clears_state :
    (∀ s : FaceState, resetTimers s = faceInit) ∧
    (∀ s : FaceState, (resetTimers s).noFaceStartTime = none ∧
      (resetTimers s).multipleFacesStartTime = none ∧
      (resetTimers s).lastAlertTime = 0) ∧
    (∀ s : GazeState, (resetGazeSession s).lookingAwayStartTime = none ∧
      (resetGazeSession s).lastAlertTime = 0) ∧
    (∀ s : YoloState, (resetYoloSession s).lastAlertTime = 0) ∧
    (∀ s : AudioState, (resetAudioSession s).lastAlertTime = 0) ∧
    (∀ (s : FaceState) (pre l : List (ℚ × ℕ)),
      runFace (resetTimers (runFace s pre).1) l = runFace faceInit l) ∧
    (∀ (s : GazeState)
      (l : List (ℚ × Option ((ℚ × ℚ × ℚ) × GazeDirectionInfo ℚ))),
      runGaze (resetGazeSession s) l = runGaze gazeInit l) ∧
    (∀ (s : YoloState) (l : List (ℚ × List Detection)),
      runYolo (resetYoloSession s) l = runYolo yoloInit l) ∧
    (∀ (s : AudioState) (l : List (ℚ × String)),
      runAudio (resetAudioSession s) l = runAudio audioInit l) :=
  ⟨fun _ => rfl, fun _ => ⟨rfl, rfl, rfl⟩, fun _ => ⟨rfl, rfl⟩, fun _ => rfl,
    fun _ => rfl, fun _ _ _ => rfl, fun _ _ => rfl, fun _ _ => rfl, fun _ _ => rfl⟩

/-! ## Claim C6 -/

/-- C6: the cooldown invariant, for each of the four modalities: a step
emits only when the observation time exceeds last_alert_time by more than
the cooldown of the modality and then stamps last_alert_time with that
time; a non-emitting step leaves last_alert_time untouched; consequently,
over any observation sequence, every pair of emitted alerts is separated
by more than the cooldown. -/
theorem c6_cooldown_invariant :
    ((∀ (s : FaceState) (now : ℚ) (c : ℕ),
      ((detectFaces s now c).2.isSome →
        now - s.lastAlertTime > faceAlertCooldown ∧
        (detectFaces s now c).1.lastAlertTime = now) ∧
      ((detectFaces s now c).2 = none →
        (detectFaces s now c).1.lastAlertTime = s.lastAlertTime)) ∧
    ∀ (s : FaceState) (l : List (ℚ × ℕ)),
      List.Pairwise (fun x y => y.1 - x.1 > faceAlertCooldown) (runFace s l).2) ∧
    ((∀ (s : GazeState) (now : ℚ)
      (obs : Option ((ℚ × ℚ × ℚ) × GazeDirectionInfo ℚ)),
      ((trackGaze s now obs).2.isSome →
        now - s.lastAlertTime > gazeAlertCooldown ∧
        (trackGaze s now obs).1.lastAlertTime = now) ∧
      ((trackGaze s now obs).2 = none →
        (trackGaze s now obs).1.lastAlertTime = s.lastAlertTime)) ∧
    ∀ (s : GazeState) (l : List (ℚ × Option ((ℚ × ℚ × ℚ) × GazeDirectionInfo ℚ))),
      List.Pairwise (fun x y => y.1 - x.1 > gazeAlertCooldown) (runGaze s l).2) ∧
    ((∀ (s : YoloState) (now : ℚ) (dets : List Detection),
      ((detectObjects s now dets).2.isSome →
        now - s.lastAlertTime > yoloAlertCooldown ∧
        (detectObjects s now dets).1.lastAlertTime = now) ∧
      ((detectObjects s now dets).2 = none →
        (detectObjects s now dets).1.lastAlertTime = s.lastAlertTime)) ∧
    ∀ (s : YoloState) (l : List (ℚ × List Detection)),
      List.Pairwise (fun x y => y.1 - x.1 > yoloAlertCooldown) (runYolo s l).2) ∧
    ((∀ (s : AudioState) (now : ℚ) (tr : String),
      ((checkSuspiciousContent s now tr).2.isSome →
        now - s.lastAlertTime > audioAlertCooldown ∧
        (checkSuspiciousContent s now tr).1.lastAlertTime = now) ∧
      ((checkSuspiciousContent s now tr).2 = none →
        (checkSuspiciousContent s now tr).1.lastAlertTime = s.lastAlertTime)) ∧
    ∀ (s : AudioState) (l : List (ℚ × String)),
      List.Pairwise (fun x y => y.1 - x.1 > audioAlertCooldown) (runAudio s l).2) := by
  refine ⟨⟨detectFaces_gated, fun s l => ?_⟩, ⟨trackGaze_gated, fun s l => ?_⟩,
    ⟨detectObjects_gated, fun s l => ?_⟩, ⟨checkSuspiciousContent_gated, fun s l => ?_⟩⟩
  · exact (runEval_spacing _ Prod.fst FaceState.lastAlertTime faceAlertCooldown
      (by norm_num [faceAlertCooldown])
      (fun s i => (detectFaces_gated s i.1 i.2).1)
      (fun s i => (detectFaces_gated s i.1 i.2).2) l s).1
  · exact (runEval_spacing _ Prod.fst GazeState.lastAlertTime gazeAlertCooldown
      (by norm_num [gazeAlertCooldown])
      (fun s i => (trackGaze_gated s i.1 i.2).1)
      (fun s i => (trackGaze_gated s i.1 i.2).2) l s).1
  · exact (runEval_spacing _ Prod.fst YoloState.lastAlertTime yoloAlertCooldown
      (by norm_num [yoloAlertCooldown])
      (fun s i => (detectObjects_gated s i.1 i.2).1)
      (fun s i => (detectObjects_gated s i.1 i.2).2) l s).1
  · exact (runEval_spacing _ Prod.fst AudioState.lastAlertTime audioAlertCooldown
      (by norm_num [audioAlertCooldown])
      (fun s i => (checkSuspiciousContent_gated s i.1 i.2).1)
      (fun s i => (checkSuspiciousContent_gated s i.1 i.2).2) l s).1

/-- C6 witness: the cooldown invariant applied to a concrete emitting
presence step: from a six-second absence with the cooldown open, the step
emits and stamps last_alert_time with the observation time. -/
theorem c6_cooldown_invariant_witness :
    (detectFaces absenceState 6 0).2.isSome = true ∧
    ((6 : ℚ) - absenceState.lastAlertTime > faceAlertCooldown ∧
      (detectFaces absenceState 6 0).1.lastAlertTime = 6) := by
  have hs : (detectFaces absenceState 6 0).2.isSome = true := by
    norm_num [detectFaces, absenceState, faceAlertThreshold, faceAlertCooldown]
  exact ⟨hs, (c6_cooldown_invariant.1.1 absenceState 6 0).1 hs⟩

/-! ## Claim C7 -/

/-- C7: for every single transcript invocation the speech evaluator emits
at most one alert and the keyword check takes priority: whenever keywords
are detected and the shared cooldown is open, the invocation returns the
keyword alert (whatever the word count) and stamps the cooldown; a
continuous-speech alert is only ever returned on transcripts with no
detected keyword; and since both checks share one cooldown state, any two
alerts of the speech modality, of either kind, are separated by more than
the cooldown, so one cooldown window cannot contain both a keyword alert
and a continuous-speech alert. -/
theorem c7_speech_single_alert_keyword_priority :
    (∀ (s : AudioState) (now : ℚ) (tr : String),
      detectedKeywords tr ≠ [] → now - s.lastAlertTime > audioAlertCooldown →
      (checkSuspiciousContent s now tr).2 =
        some (SpeechAlert.suspiciousSpeech (detectedKeywords tr)) ∧
      (checkSuspiciousContent s now tr).1.lastAlertTime = now) ∧
    (∀ (s : AudioState) (now : ℚ) (tr : String),
      (checkSuspiciousContent s now tr).2 = some SpeechAlert.continuousSpeech →
      detectedKeywords tr = []) ∧
    (∀ (s : AudioState) (l : List (ℚ × String)),
      List.Pairwise (fun x y => y.1 - x.1 > audioAlertCooldown) (runAudio s l).2) := by
  refine ⟨fun s now tr h1 h2 => ?_, fun s now tr h => ?_, fun s l => ?_⟩
  · simp only [checkSuspiciousContent, if_pos (And.intro h1 h2)]
    exact ⟨trivial, trivial⟩
  · simp only [checkSuspiciousContent] at h
    split at h
    · simp at h
    · split at h
      · next hn1 h2c =>
        rcases h2c with ⟨-, hcd⟩
        by_contra hne
        exact hn1 ⟨hne, hcd⟩
      · simp at h
  · exact (runEval_spacing _ Prod.fst AudioState.lastAlertTime audioAlertCooldown
      (by norm_num [audioAlertCooldown])
      (fun s i => (checkSuspiciousContent_gated s i.1 i.2).1)
      (fun s i => (checkSuspiciousContent_gated s i.1 i.2).2) l s).1

/-- C7 witness: the keyword-priority clause applied to the concrete
transcript of spec scenario 3, which matches the keywords answer and
tell me. -/
theorem c7_keyword_priority_witness :
    detectedKeywords "can you tell me the answer" ≠ [] ∧
    (100 : ℚ) - audioInit.lastAlertTime > audioAlertCooldown ∧
    (checkSuspiciousContent audioInit 100 "can you tell me the answer").2 =
      some (SpeechAlert.suspiciousSpeech ["answer", "tell me"]) := by
  have h1 : detectedKeywords "can you tell me the answer" = ["answer", "tell me"] := by
    decide
  have hne : detectedKeywords "can you tell me the answer" ≠ [] := by decide
  have h2 : (100 : ℚ) - audioInit.lastAlertTime > audioAlertCooldown := by
    norm_num [audioInit, audioAlertCooldown]
  have hmain := (c7_speech_single_alert_keyword_priority.1 audioInit 100
    "can you tell me the answer" hne h2).1
  rw [h1] at hmain
  exact ⟨hne, h2, hmain⟩

/-! ## Claim C8 -/

/-- C8: when the PnP solve does not converge, calculate_head_pose returns
the neutral pose (0, 0, 0) without raising; and the neutral pose can never
by itself trigger the looking-away logic: for every gaze-direction record
the looking-away flag at (0, 0, 0) is false, and a track_gaze step whose
observation carries the neutral pose emits no alert. -/
theorem c8_failed_solve_neutral_pose :
    calculateHeadPose none = (0, 0, 0) ∧
    (∀ gd : GazeDirectionInfo ℚ, isLookingAway ((0 : ℚ), 0, 0) gd = false) ∧
    (∀ (s : GazeState) (now : ℚ) (gd : GazeDirectionInfo ℚ),
      (trackGaze s now (some (((0 : ℚ), 0, 0), gd))).2 = none) := by
  refine ⟨rfl, fun gd => ?_, fun s now gd => ?_⟩
  · norm_num [isLookingAway, headPoseThreshold]
  · norm_num [trackGaze, isLookingAway, headPoseThreshold]

/-! ## Claim C9 -/

/-- C9: the eye-aspect-ratio computation divides by 2 times the distance
between the first and fourth eye points with no zero guard; that
denominator vanishes exactly when the two horizontal points coincide, so
the ratio is well defined precisely under the precondition that the
horizontal point pair is distinct. -/
theorem c9_ear_denominator_zero_iff_coincident :
    (∀ eye : Fin 6 → ℝ × ℝ, earDenominator eye = 0 ↔ eye 0 = eye 3) ∧
    (∀ eye : Fin 6 → ℝ × ℝ, eye 0 ≠ eye 3 → earDenominator eye ≠ 0) := by
  have main : ∀ eye : Fin 6 → ℝ × ℝ, earDenominator eye = 0 ↔ eye 0 = eye 3 := by
    intro eye
    unfold earDenominator pointDist
    rw [mul_eq_zero]
    constructor
    · rintro (h | h)
      · norm_num at h
      · rw [Real.sqrt_eq_zero'] at h
        have h2 : ((eye 0).1 - (eye 3).1) ^ 2 = 0 ∧ ((eye 0).2 - (eye 3).2) ^ 2 = 0 := by
          constructor <;> nlinarith [sq_nonneg ((eye 0).1 - (eye 3).1),
            sq_nonneg ((eye 0).2 - (eye 3).2)]
        have hx : (eye 0).1 = (eye 3).1 := by
          have hz := pow_eq_zero_iff (n := 2) (by norm_num) |>.mp h2.1
          linarith [sub_eq_zero.mp hz]
        have hy : (eye 0).2 = (eye 3).2 := by
          have hz := pow_eq_zero_iff (n := 2) (by norm_num) |>.mp h2.2
          linarith [sub_eq_zero.mp hz]
        exact Prod.ext hx hy
    · intro h
      rw [h]
      right
      simp
  exact ⟨main, fun eye h h0 => h ((main eye).mp h0)⟩

/-- C9 witness: the precondition clause applied at a concrete eye whose
horizontal pair is distinct. -/
theorem c9_ear_denominator_witness :
    eyeWitnessPoints 0 ≠ eyeWitnessPoints 3 ∧ earDenominator eyeWitnessPoints ≠ 0 := by
  have hne : eyeWitnessPoints 0 ≠ eyeWitnessPoints 3 := by
    simp [eyeWitnessPoints, Prod.ext_iff]
  exact ⟨hne, c9_ear_denominator_zero_iff_coincident.2 eyeWitnessPoints hne⟩

/-! ## Claim C10 -/

/-- C10: keyword detection is case-insensitive substring containment over
the lowercased transcript, not whole-word matching: a keyword is detected
exactly when it occurs as a contiguous character substring of the
lowercased transcript; in particular a keyword occurring only as a
fragment of a longer word is still detected (phone inside Telephone, exam
inside examine) and can trigger the suspicious-speech alert. -/
theorem c10_keyword_substring_detection :
    (∀ (transcription keyword : String),
      keyword ∈ detectedKeywords transcription ↔
        keyword ∈ suspiciousKeywords ∧
        List.IsInfix keyword.toList (transcription.toList.map Char.toLower)) ∧
    detectedKeywords "Telephone" = ["phone"] ∧
    detectedKeywords "examine" = ["exam"] ∧
    (checkSuspiciousContent audioInit 100 "Telephone").2 =
      some (SpeechAlert.suspiciousSpeech ["phone"]) := by
  refine ⟨fun tr k => ?_, by decide, by decide, ?_⟩
  · simp [detectedKeywords, List.mem_filter]
  · have h1 : detectedKeywords "Telephone" = ["phone"] := by decide
    simp only [checkSuspiciousContent]
    rw [if_pos]
    · rw [h1]
    · exact ⟨by decide, by norm_num [audioInit, audioAlertCooldown]⟩

end ExamSystem
